import Mathlib

/-!
Verification of the `WalletContractV4` wallet wrapper
(`src/wallets/WalletContractV4.ts`).

The TypeScript class is embedded shallowly:

* `Cell`, `MessageRelaxed`, addresses and stack items of the external SDK
  are modelled symbolically as inductive data; the SDK's deterministic
  constructors (`beginCell`-chains, `contractAddress`, `internal`) become
  injective Lean constructors.
* The injected `ContractProvider` is modelled as an oracle giving, for each
  of the three provider entry points used by the class (`getState`, `get`,
  `external`), either a result or a raised error.
* Every `async` method of the class becomes a pure function returning an
  `Outcome`: the returned-or-thrown value (`Except`), the ordered list of
  provider round trips it issued, and the wallet object as it stands after
  the call (the class fields are `readonly` and no method assigns them,
  which the embedding renders by returning the receiver unchanged).
* The external transfer builder `createWalletTransferV4` lives in a
  repository file that is not among the sources, so the methods take the
  builder as an explicit function argument `sign`; its canonical
  deterministic instance is `createWalletTransferV4` below.
-/

namespace TonWallet

/-- Errors raised by the provider or by the signing routine (opaque values
in the TypeScript source; modelled as strings). -/
abbrev Err := String

/-- One item stored into a cell by a `beginCell()...endCell()` builder
chain, as used by the wallet constructor. -/
inductive CellItem where
  | uintItem (value : Int) (bits : Nat)
  | bufferItem (bytes : List Nat)
  | bitItem (b : Nat)
deriving DecidableEq, Repr

/-- The authorization part of transfer arguments: the `SendArgsSigned`
variant carries a secret key, the `SendArgsSignable` variant carries an
external signer (modelled by an identifier, since it is never inspected
here). -/
inductive WalletAuth where
  | signedWith (secretKey : List Nat)
  | signableWith (signerId : Nat)
deriving DecidableEq, Repr

mutual
/-- Symbolic model of the SDK `Cell`: a cell decoded from a base64 BOC
string (`Cell.fromBoc(...)[0]`), a cell assembled by a builder chain, or a
transfer cell produced by the wallet-v4 transfer builder from its
arguments (seqno, auth, messages, send mode, timeout, wallet id). -/
inductive Cell : Type where
  | fromBocIdx : String → Cell
  | built : List CellItem → Cell
  | transferV4 : Int → WalletAuth → List MessageRelaxed → Int → Option Int → Int → Cell

/-- Symbolic model of the SDK `MessageRelaxed`: either an internal message
built by `internal({to, value, init, body, bounce})` (init modelled as
optional code/data cells), or some other message supplied by a caller. -/
inductive MessageRelaxed : Type where
  | internalMsg : String → Int → Option (Option Cell × Option Cell) → Option Cell → Option Bool → MessageRelaxed
  | otherMsg : Nat → MessageRelaxed
end

/-- Modelled from the external SDK: `internal` deterministically builds an
internal relaxed message from its arguments. -/
def internal (toAddr : String) (value : Int) (ini : Option (Option Cell × Option Cell))
    (body : Option Cell) (bounce : Option Bool) : MessageRelaxed :=
  MessageRelaxed.internalMsg toAddr value ini body bounce

/-- An entry of the stack returned by a provider `get` call. -/
inductive TupleItem where
  | num (n : Int)
  | nonNum (id : Nat)
deriving DecidableEq, Repr

/-- Modelled from the external SDK: `TupleReader.readNumber` reads the
first stack entry as a number and raises if it is not one. -/
def readNumber : List TupleItem → Except Err Int
  | TupleItem.num n :: _ => Except.ok n
  | _ => Except.error "Not a number"

/-- The part of the provider `getState` answer the class reads: the
balance and the account state type (`"uninit"`, `"active"` or
`"frozen"`). -/
structure ProviderState where
  balance : Int
  stateType : String
deriving DecidableEq, Repr

/-- Oracle model of the injected `ContractProvider`: for each provider
entry point used by the class, the answer the remote side would give —
either a value or a raised error. -/
structure ContractProvider where
  getStateR : Except Err ProviderState
  getR : String → List TupleItem → Except Err (List TupleItem)
  externalR : Cell → Except Err Unit

/-- One provider round trip, recorded in the order issued. -/
inductive ProviderCall where
  | getStateCall : ProviderCall
  | getCall : String → List TupleItem → ProviderCall
  | externalCall : Cell → ProviderCall

/-- Modelled from the external SDK: an `Address`, as derived by
`contractAddress` from the workchain and the initial state; the derivation
is a deterministic pure function, modelled injectively. -/
structure Address where
  workchain : Int
  initCode : Cell
  initData : Cell

/-- Modelled from the external SDK: `contractAddress(workchain, {code, data})`. -/
def contractAddress (workchain : Int) (code data : Cell) : Address :=
  ⟨workchain, code, data⟩

/-- The `init` field: initial data and code cells. -/
structure WalletInit where
  data : Cell
  code : Cell

/-- The wallet object: the five `readonly` fields of `WalletContractV4`. -/
structure WalletContractV4 where
  workchain : Int
  publicKey : List Nat
  address : Address
  walletId : Int
  init : WalletInit

/-- The base64 BOC string of the wallet v4 contract code, as in the
constructor. -/
def walletV4CodeBase64 : String :=
  "te6ccgECFAEAAtQAART/APSkE/S88sgLAQIBIAIDAgFIBAUE+PKDCNcYINMf0x/THwL4I7vyZO1E0NMf0x/T//QE0VFDuvKhUVG68qIF+QFUEGT5EPKj+AAkpMjLH1JAyx9SMMv/UhD0AMntVPgPAdMHIcAAn2xRkyDXSpbTB9QC+wDoMOAhwAHjACHAAuMAAcADkTDjDQOkyMsfEssfy/8QERITAubQAdDTAyFxsJJfBOAi10nBIJJfBOAC0x8hghBwbHVnvSKCEGRzdHK9sJJfBeAD+kAwIPpEAcjKB8v/ydDtRNCBAUDXIfQEMFyBAQj0Cm+hMbOSXwfgBdM/yCWCEHBsdWe6kjgw4w0DghBkc3RyupJfBuMNBgcCASAICQB4AfoA9AQw+CdvIjBQCqEhvvLgUIIQcGx1Z4MesXCAGFAEywUmzxZY+gIZ9ADLaRfLH1Jgyz8gyYBA+wAGAIpQBIEBCPRZMO1E0IEBQNcgyAHPFvQAye1UAXKwjiOCEGRzdHKDHrFwgBhQBcsFUAPPFiP6AhPLassfyz/JgED7AJJfA+ICASAKCwBZvSQrb2omhAgKBrkPoCGEcNQICEekk30pkQzmkD6f+YN4EoAbeBAUiYcVnzGEAgFYDA0AEbjJftRNDXCx+AA9sp37UTQgQFA1yH0BDACyMoHy//J0AGBAQj0Cm+hMYAIBIA4PABmtznaiaEAga5Drhf/AABmvHfaiaEAQa5DrhY/AAG7SB/oA1NQi+QAFyMoHFcv/ydB3dIAYyMsFywIizxZQBfoCFMtrEszMyXP7AMhAFIEBCPRR8qcCAHCBAQjXGPoA0z/IVCBHgQEI9FHyp4IQbm90ZXB0gBjIywXLAlAGzxZQBPoCFMtqEssfyz/Jc/sAAgBsgQEI1xj6ANM/MFIkgQEI9Fnyp4IQZHN0cnB0gBjIywXLAlAFzxZQA/oCE8tqyx8Syz/Jc/sAAAr0AMntVA=="

/-- `WalletContractV4.create` / the private constructor: resolve the
wallet id (defaulting to `698983191 + workchain` when the argument is
null or undefined), decode the code cell from the BOC, build the data
cell `storeUint(0,32).storeUint(walletId,32).storeBuffer(publicKey).storeBit(0)`,
and derive the address. -/
def WalletContractV4.create (workchain : Int) (publicKey : List Nat)
    (walletId : Option Int) : WalletContractV4 :=
  let wid : Int :=
    match walletId with
    | some w => w
    | none => 698983191 + workchain
  let code : Cell := Cell.fromBocIdx walletV4CodeBase64
  let data : Cell := Cell.built
    [CellItem.uintItem 0 32, CellItem.uintItem wid 32,
     CellItem.bufferItem publicKey, CellItem.bitItem 0]
  ⟨workchain, publicKey, contractAddress workchain code data, wid, ⟨data, code⟩⟩

/-- The observable outcome of one method call: the value returned to the
caller (or the error it throws), the ordered provider round trips it
issued, and the wallet object after the call. -/
structure Outcome (α : Type) where
  result : Except Err α
  calls : List ProviderCall
  selfAfter : WalletContractV4

/-- `getBalance(provider)`: one `getState` round trip, returning the
state's balance field. -/
def WalletContractV4.getBalance (w : WalletContractV4) (p : ContractProvider) :
    Outcome Int :=
  match p.getStateR with
  | Except.error e => ⟨Except.error e, [ProviderCall.getStateCall], w⟩
  | Except.ok st => ⟨Except.ok st.balance, [ProviderCall.getStateCall], w⟩

/-- `getSeqno(provider)`: one `getState` round trip; when the account
state is `"active"`, a further `get("seqno", [])` round trip whose stack's
first number is returned; otherwise the result is `0`. -/
def WalletContractV4.getSeqno (w : WalletContractV4) (p : ContractProvider) :
    Outcome Int :=
  match p.getStateR with
  | Except.error e => ⟨Except.error e, [ProviderCall.getStateCall], w⟩
  | Except.ok st =>
    if st.stateType = "active" then
      match p.getR "seqno" [] with
      | Except.error e =>
        ⟨Except.error e, [ProviderCall.getStateCall, ProviderCall.getCall "seqno" []], w⟩
      | Except.ok stack =>
        ⟨readNumber stack, [ProviderCall.getStateCall, ProviderCall.getCall "seqno" []], w⟩
    else
      ⟨Except.ok 0, [ProviderCall.getStateCall], w⟩

/-- `send(provider, message)`: one `external` round trip submitting the
given cell unchanged. -/
def WalletContractV4.send (w : WalletContractV4) (p : ContractProvider)
    (message : Cell) : Outcome Unit :=
  match p.externalR message with
  | Except.error e => ⟨Except.error e, [ProviderCall.externalCall message], w⟩
  | Except.ok _ => ⟨Except.ok (), [ProviderCall.externalCall message], w⟩

/-- The arguments record the wallet-v4 transfer builder receives: seqno,
authorization, messages, send mode, timeout and wallet id. -/
structure WalletTransferV4Params where
  seqno : Int
  auth : WalletAuth
  messages : List MessageRelaxed
  sendMode : Int
  timeout : Option Int
  walletId : Int

/-- `SendMode.PAY_GAS_SEPARATELY` of the external SDK. -/
def PAY_GAS_SEPARATELY : Int := 1

/-- Modelled from the spec: the external transfer builder and signing
helper `createWalletTransferV4` (its repository file
`src/wallets/signing/createWalletTransfer.ts` is not among the provided
sources). The spec delegates transfer construction and signing to it; its
output is modelled as an abstract cell determined by its arguments. -/
def createWalletTransferV4 (p : WalletTransferV4Params) : Except Err Cell :=
  Except.ok (Cell.transferV4 p.seqno p.auth p.messages p.sendMode p.timeout p.walletId)

/-- The caller-side arguments of `createTransfer`: seqno, authorization,
messages, optional send mode, optional timeout. -/
structure CreateTransferArgs where
  seqno : Int
  auth : WalletAuth
  messages : List MessageRelaxed
  sendMode : Option Int
  timeout : Option Int

/-- `createTransfer(args)`: forward the arguments to the transfer builder
`sign` (standing for `createWalletTransferV4`), with the send mode
defaulted to `PAY_GAS_SEPARATELY` when null or undefined and the wallet id
set to the wallet's own `walletId` field. Returns the builder's answer and
the wallet object after the call. -/
def WalletContractV4.createTransfer (w : WalletContractV4)
    (sign : WalletTransferV4Params → Except Err Cell)
    (args : CreateTransferArgs) : Except Err Cell × WalletContractV4 :=
  (sign ⟨args.seqno, args.auth, args.messages,
    args.sendMode.getD PAY_GAS_SEPARATELY, args.timeout, w.walletId⟩, w)

/-- The arguments of `sendTransfer`: seqno, secret key, messages, optional
send mode, optional timeout. -/
structure SendTransferArgs where
  seqno : Int
  secretKey : List Nat
  messages : List MessageRelaxed
  sendMode : Option Int
  timeout : Option Int

/-- How `sendTransfer` packages its arguments for `createTransfer`. -/
def sendTransferCreateArgs (a : SendTransferArgs) : CreateTransferArgs :=
  ⟨a.seqno, WalletAuth.signedWith a.secretKey, a.messages, a.sendMode, a.timeout⟩

/-- `sendTransfer(provider, args)`: build the transfer with
`createTransfer` and submit it with `send`; a builder error propagates
before any provider round trip. -/
def WalletContractV4.sendTransfer (w : WalletContractV4) (p : ContractProvider)
    (sign : WalletTransferV4Params → Except Err Cell)
    (args : SendTransferArgs) : Outcome Unit :=
  match (w.createTransfer sign (sendTransferCreateArgs args)).1 with
  | Except.error e => ⟨Except.error e, [], w⟩
  | Except.ok transfer => w.send p transfer

/-- The arguments of the `send` function of the object returned by
`sender`: the fields of the SDK `SenderArguments` the code reads. -/
structure SenderSendArgs where
  toAddr : String
  value : Int
  ini : Option (Option Cell × Option Cell)
  body : Option Cell
  bounce : Option Bool
  sendMode : Option Int

/-- One entry of the `msgs` list of the `sends` function. -/
structure SenderMsgArgs where
  toAddr : String
  value : Int
  ini : Option (Option Cell × Option Cell)
  body : Option Cell
  bounce : Option Bool

/-- The arguments of the `sends` function of the object returned by
`sender`. -/
structure SenderSendsArgs where
  sendMode : Option Int
  msgs : List SenderMsgArgs

/-- The `send` function of the object returned by
`sender(provider, secretKey)`: read the seqno with `getSeqno`, build the
transfer for one internal message with `createTransfer`, submit it with
`send`. -/
def WalletContractV4.senderSend (w : WalletContractV4) (p : ContractProvider)
    (sign : WalletTransferV4Params → Except Err Cell)
    (secretKey : List Nat) (args : SenderSendArgs) : Outcome Unit :=
  match (WalletContractV4.getSeqno w p).result with
  | Except.error e => ⟨Except.error e, (WalletContractV4.getSeqno w p).calls, w⟩
  | Except.ok seqno =>
    match (WalletContractV4.createTransfer w sign
        ⟨seqno, WalletAuth.signedWith secretKey,
         [internal args.toAddr args.value args.ini args.body args.bounce],
         args.sendMode, none⟩).1 with
    | Except.error e => ⟨Except.error e, (WalletContractV4.getSeqno w p).calls, w⟩
    | Except.ok transfer =>
      ⟨(WalletContractV4.send w p transfer).result,
       (WalletContractV4.getSeqno w p).calls ++ (WalletContractV4.send w p transfer).calls, w⟩

/-- The `sends` function of the object returned by
`sender(provider, secretKey)`: read the seqno with `getSeqno`, build the
transfer for the mapped internal messages with `createTransfer`, submit it
with `send`. -/
def WalletContractV4.senderSends (w : WalletContractV4) (p : ContractProvider)
    (sign : WalletTransferV4Params → Except Err Cell)
    (secretKey : List Nat) (args : SenderSendsArgs) : Outcome Unit :=
  match (WalletContractV4.getSeqno w p).result with
  | Except.error e => ⟨Except.error e, (WalletContractV4.getSeqno w p).calls, w⟩
  | Except.ok seqno =>
    match (WalletContractV4.createTransfer w sign
        ⟨seqno, WalletAuth.signedWith secretKey,
         args.msgs.map (fun m => internal m.toAddr m.value m.ini m.body m.bounce),
         args.sendMode, none⟩).1 with
    | Except.error e => ⟨Except.error e, (WalletContractV4.getSeqno w p).calls, w⟩
    | Except.ok transfer =>
      ⟨(WalletContractV4.send w p transfer).result,
       (WalletContractV4.getSeqno w p).calls ++ (WalletContractV4.send w p transfer).calls, w⟩

/-! Concrete fixtures used by witnesses and the counterexample. -/

/-- A concrete wallet: workchain 0, a three-byte public key, defaulted
wallet id. -/
def w0 : WalletContractV4 := WalletContractV4.create 0 [1, 2, 3] none

/-- A provider holding an active account with balance 1000 whose `get`
answers with a stack holding the number 5. -/
def pAct : ContractProvider :=
  ⟨Except.ok ⟨1000, "active"⟩, fun _ _ => Except.ok [TupleItem.num 5],
   fun _ => Except.ok ()⟩

/-- A provider holding an uninitialized account. -/
def pUninit : ContractProvider :=
  ⟨Except.ok ⟨0, "uninit"⟩, fun _ _ => Except.ok [], fun _ => Except.ok ()⟩

/-- A provider whose `getState` raises. -/
def pStateErr : ContractProvider :=
  ⟨Except.error "boom", fun _ _ => Except.ok [], fun _ => Except.ok ()⟩

/-- A provider holding an active account whose `get` raises. -/
def pGetErr : ContractProvider :=
  ⟨Except.ok ⟨7, "active"⟩, fun _ _ => Except.error "get failed",
   fun _ => Except.ok ()⟩

/-- A provider holding an active account whose `external` raises. -/
def pExtErr : ContractProvider :=
  ⟨Except.ok ⟨7, "active"⟩, fun _ _ => Except.ok [TupleItem.num 5],
   fun _ => Except.error "ext failed"⟩

/-- A transfer builder that raises, modelling a failing signing routine. -/
def signErr : WalletTransferV4Params → Except Err Cell :=
  fun _ => Except.error "sign failed"

/-- A concrete message cell. -/
def m0 : Cell := Cell.built []

/-- Concrete `sendTransfer` arguments: seqno 5, secret key `[9]`, no
messages, defaulted send mode and timeout. -/
def ta0 : SendTransferArgs := ⟨5, [9], [], none, none⟩

/-- Concrete sender `send` arguments. -/
def sa0 : SenderSendArgs := ⟨"EQAddr", 100, none, none, none, none⟩

/-- Concrete sender `sends` arguments with an empty message list. -/
def sas0 : SenderSendsArgs := ⟨none, []⟩

/-- Concrete `createTransfer` arguments with defaulted send mode. -/
def ca0 : CreateTransferArgs := ⟨5, WalletAuth.signedWith [9], [], none, none⟩

/-- Concrete `createTransfer` arguments with explicit send mode 3. -/
def ca1 : CreateTransferArgs := ⟨5, WalletAuth.signedWith [9], [], some 3, none⟩

/-- The transfer cell `sendTransfer` builds from `ta0` on `w0`. -/
def t0 : Cell := Cell.transferV4 5 (WalletAuth.signedWith [9]) [] 1 none 698983191

/-- The transfer cell the sender `send` builds from `sa0` on `w0` at
seqno 5. -/
def tr1 : Cell :=
  Cell.transferV4 5 (WalletAuth.signedWith [9])
    [internal "EQAddr" 100 none none none] 1 none 698983191

/-- The transfer cell the sender `sends` builds from `sas0` on `w0` at
seqno 5. -/
def tr2 : Cell := Cell.transferV4 5 (WalletAuth.signedWith [9]) [] 1 none 698983191

/-! Helper lemmas shared by the claim theorems. -/

theorem selfAfter_getBalance (w : WalletContractV4) (p : ContractProvider) :
    (WalletContractV4.getBalance w p).selfAfter = w := by
  unfold WalletContractV4.getBalance
  cases p.getStateR <;> rfl

theorem selfAfter_getSeqno (w : WalletContractV4) (p : ContractProvider) :
    (WalletContractV4.getSeqno w p).selfAfter = w := by
  unfold WalletContractV4.getSeqno
  split
  · rfl
  · split
    · split <;> rfl
    · rfl

theorem selfAfter_send (w : WalletContractV4) (p : ContractProvider) (m : Cell) :
    (WalletContractV4.send w p m).selfAfter = w := by
  unfold WalletContractV4.send
  cases p.externalR m <;> rfl

theorem calls_send (w : WalletContractV4) (p : ContractProvider) (m : Cell) :
    (WalletContractV4.send w p m).calls = [ProviderCall.externalCall m] := by
  unfold WalletContractV4.send
  cases p.externalR m <;> rfl

theorem selfAfter_sendTransfer (w : WalletContractV4) (p : ContractProvider)
    (sign : WalletTransferV4Params → Except Err Cell) (ta : SendTransferArgs) :
    (WalletContractV4.sendTransfer w p sign ta).selfAfter = w := by
  unfold WalletContractV4.sendTransfer
  split
  · rfl
  · exact selfAfter_send w p _

theorem selfAfter_senderSend (w : WalletContractV4) (p : ContractProvider)
    (sign : WalletTransferV4Params → Except Err Cell) (sk : List Nat)
    (sa : SenderSendArgs) :
    (WalletContractV4.senderSend w p sign sk sa).selfAfter = w := by
  unfold WalletContractV4.senderSend
  split
  · rfl
  · split <;> rfl

theorem selfAfter_senderSends (w : WalletContractV4) (p : ContractProvider)
    (sign : WalletTransferV4Params → Except Err Cell) (sk : List Nat)
    (sas : SenderSendsArgs) :
    (WalletContractV4.senderSends w p sign sk sas).selfAfter = w := by
  unfold WalletContractV4.senderSends
  split
  · rfl
  · split <;> rfl

theorem calls_length_getSeqno (w : WalletContractV4) (p : ContractProvider) :
    (WalletContractV4.getSeqno w p).calls.length ≤ 2 := by
  unfold WalletContractV4.getSeqno
  split
  · simp
  · split
    · split <;> simp
    · simp

theorem calls_length_senderSend (w : WalletContractV4) (p : ContractProvider)
    (sign : WalletTransferV4Params → Except Err Cell) (sk : List Nat)
    (sa : SenderSendArgs) :
    (WalletContractV4.senderSend w p sign sk sa).calls.length ≤ 3 := by
  unfold WalletContractV4.senderSend
  split
  · exact (calls_length_getSeqno w p).trans (by norm_num)
  · split
    · exact (calls_length_getSeqno w p).trans (by norm_num)
    · have h := calls_length_getSeqno w p
      simp only [calls_send, List.length_append, List.length_cons, List.length_nil]
      omega

theorem calls_length_senderSends (w : WalletContractV4) (p : ContractProvider)
    (sign : WalletTransferV4Params → Except Err Cell) (sk : List Nat)
    (sas : SenderSendsArgs) :
    (WalletContractV4.senderSends w p sign sk sas).calls.length ≤ 3 := by
  unfold WalletContractV4.senderSends
  split
  · exact (calls_length_getSeqno w p).trans (by norm_num)
  · split
    · exact (calls_length_getSeqno w p).trans (by norm_num)
    · have h := calls_length_getSeqno w p
      simp only [calls_send, List.length_append, List.length_cons, List.length_nil]
      omega

/-! Claim theorems. -/

/-- C1: derivation of the contract initial state and address is
deterministic: two invocations of `WalletContractV4.create` with equal
workchain, equal publicKey bytes and equal walletId argument yield wallets
with equal `init.code`, equal `init.data` and equal `address`. -/
theorem create_deterministic (wc1 wc2 : Int) (pk1 pk2 : List Nat)
    (wid1 wid2 : Option Int) (hwc : wc1 = wc2) (hpk : pk1 = pk2)
    (hwid : wid1 = wid2) :
    (WalletContractV4.create wc1 pk1 wid1).init.code =
      (WalletContractV4.create wc2 pk2 wid2).init.code ∧
    (WalletContractV4.create wc1 pk1 wid1).init.data =
      (WalletContractV4.create wc2 pk2 wid2).init.data ∧
    (WalletContractV4.create wc1 pk1 wid1).address =
      (WalletContractV4.create wc2 pk2 wid2).address := by
  subst hwc
  subst hpk
  subst hwid
  exact ⟨rfl, rfl, rfl⟩

/-- Witness for C1 at workchain 0, public key `[1, 2, 3]`, defaulted
wallet id. -/
theorem create_deterministic_witness :
    (WalletContractV4.create 0 [1, 2, 3] none).init.code =
      (WalletContractV4.create 0 [1, 2, 3] none).init.code ∧
    (WalletContractV4.create 0 [1, 2, 3] none).init.data =
      (WalletContractV4.create 0 [1, 2, 3] none).init.data ∧
    (WalletContractV4.create 0 [1, 2, 3] none).address =
      (WalletContractV4.create 0 [1, 2, 3] none).address :=
  create_deterministic 0 0 [1, 2, 3] [1, 2, 3] none none rfl rfl rfl

/-- C8: when the walletId argument is null or undefined the `walletId`
field is `698983191 + workchain`; otherwise it is exactly the given
value. -/
theorem walletId_defaulting (wc : Int) (pk : List Nat) (wid : Int) :
    (WalletContractV4.create wc pk none).walletId = 698983191 + wc ∧
    (WalletContractV4.create wc pk (some wid)).walletId = wid :=
  ⟨rfl, rfl⟩

/-- C4: `getBalance(provider)` returns exactly the balance field of the
state returned by `provider.getState()`, with no transformation and no
other provider interaction. -/
theorem getBalance_passthrough (w : WalletContractV4) (p : ContractProvider)
    (st : ProviderState) (h : p.getStateR = Except.ok st) :
    (WalletContractV4.getBalance w p).result = Except.ok st.balance ∧
    (WalletContractV4.getBalance w p).calls = [ProviderCall.getStateCall] := by
  unfold WalletContractV4.getBalance
  rw [h]
  exact ⟨rfl, rfl⟩

/-- Witness for C4 on the active provider with balance 1000. -/
theorem getBalance_passthrough_witness :
    (WalletContractV4.getBalance w0 pAct).result = Except.ok (1000 : Int) ∧
    (WalletContractV4.getBalance w0 pAct).calls = [ProviderCall.getStateCall] :=
  getBalance_passthrough w0 pAct ⟨1000, "active"⟩ rfl

/-- C9: `getSeqno(provider)` returns 0 without invoking the on-chain
seqno getter when the state type is not `"active"`; when it is
`"active"`, it calls `provider.get("seqno", [])` after `getState` and
returns the first number read from the result stack. -/
theorem getSeqno_state_branching (w : WalletContractV4) (p : ContractProvider)
    (st : ProviderState) (h : p.getStateR = Except.ok st) :
    (st.stateType ≠ "active" →
      (WalletContractV4.getSeqno w p).result = Except.ok 0 ∧
      (WalletContractV4.getSeqno w p).calls = [ProviderCall.getStateCall]) ∧
    (st.stateType = "active" →
      (WalletContractV4.getSeqno w p).calls =
        [ProviderCall.getStateCall, ProviderCall.getCall "seqno" []] ∧
      ∀ stack, p.getR "seqno" [] = Except.ok stack →
        (WalletContractV4.getSeqno w p).result = readNumber stack) := by
  unfold WalletContractV4.getSeqno
  simp only [h]
  constructor
  · intro hne
    rw [if_neg hne]
    exact ⟨rfl, rfl⟩
  · intro hact
    rw [if_pos hact]
    cases hg : p.getR "seqno" [] with
    | error e =>
      refine ⟨rfl, ?_⟩
      intro stack hstack
      cases hstack
    | ok stack0 =>
      refine ⟨rfl, ?_⟩
      intro stack hstack
      injection hstack with hss
      subst hss
      rfl

/-- Witness for C9 on an uninitialized provider and on an active provider
whose seqno stack is `[5]`. -/
theorem getSeqno_state_branching_witness :
    ((WalletContractV4.getSeqno w0 pUninit).result = Except.ok 0 ∧
      (WalletContractV4.getSeqno w0 pUninit).calls = [ProviderCall.getStateCall]) ∧
    ((WalletContractV4.getSeqno w0 pAct).calls =
        [ProviderCall.getStateCall, ProviderCall.getCall "seqno" []] ∧
      (WalletContractV4.getSeqno w0 pAct).result = readNumber [TupleItem.num 5]) :=
  ⟨(getSeqno_state_branching w0 pUninit ⟨0, "uninit"⟩ rfl).1 (by decide),
   ⟨((getSeqno_state_branching w0 pAct ⟨1000, "active"⟩ rfl).2 rfl).1,
    ((getSeqno_state_branching w0 pAct ⟨1000, "active"⟩ rfl).2 rfl).2
      [TupleItem.num 5] rfl⟩⟩

/-- C5: `send(provider, message)` submits exactly the given cell,
unchanged, to `provider.external` and performs no other effect; and
`sendTransfer(provider, args)` equals building the transfer with
`createTransfer(args)` and then calling `send` with the resulting cell. -/
theorem send_passthrough_sendTransfer_composed (w : WalletContractV4)
    (p : ContractProvider) (m t : Cell)
    (sign : WalletTransferV4Params → Except Err Cell) (ta : SendTransferArgs)
    (h : (WalletContractV4.createTransfer w sign (sendTransferCreateArgs ta)).1 =
      Except.ok t) :
    (WalletContractV4.send w p m).calls = [ProviderCall.externalCall m] ∧
    (WalletContractV4.send w p m).result = p.externalR m ∧
    (WalletContractV4.send w p m).selfAfter = w ∧
    WalletContractV4.sendTransfer w p sign ta = WalletContractV4.send w p t := by
  refine ⟨calls_send w p m, ?_, selfAfter_send w p m, ?_⟩
  · unfold WalletContractV4.send
    cases hx : p.externalR m with
    | error e => rfl
    | ok u => cases u; rfl
  · unfold WalletContractV4.sendTransfer
    simp only [h]

/-- Witness for C5 on the active provider, with the canonical builder and
the `ta0` arguments. -/
theorem send_passthrough_sendTransfer_composed_witness :
    (WalletContractV4.send w0 pAct m0).calls = [ProviderCall.externalCall m0] ∧
    (WalletContractV4.send w0 pAct m0).result = pAct.externalR m0 ∧
    (WalletContractV4.send w0 pAct m0).selfAfter = w0 ∧
    WalletContractV4.sendTransfer w0 pAct createWalletTransferV4 ta0 =
      WalletContractV4.send w0 pAct t0 :=
  send_passthrough_sendTransfer_composed w0 pAct m0 t0 createWalletTransferV4 ta0 rfl

/-- C10: `createTransfer(args)` forwards `args` to the transfer builder
with `sendMode` replaced by `PAY_GAS_SEPARATELY` when it is null or
undefined (kept otherwise) and with `walletId` always the wallet's own
`walletId` field. -/
theorem createTransfer_forwarding (w : WalletContractV4)
    (sign : WalletTransferV4Params → Except Err Cell)
    (args : CreateTransferArgs) (md : Int) :
    (args.sendMode = none →
      (WalletContractV4.createTransfer w sign args).1 =
        sign ⟨args.seqno, args.auth, args.messages, PAY_GAS_SEPARATELY,
          args.timeout, w.walletId⟩) ∧
    (args.sendMode = some md →
      (WalletContractV4.createTransfer w sign args).1 =
        sign ⟨args.seqno, args.auth, args.messages, md, args.timeout,
          w.walletId⟩) := by
  constructor
  · intro h
    unfold WalletContractV4.createTransfer
    simp only [h, Option.getD_none]
  · intro h
    unfold WalletContractV4.createTransfer
    simp only [h, Option.getD_some]

/-- Witness for C10 on `w0` with the canonical builder, once with a
defaulted send mode and once with send mode 3. -/
theorem createTransfer_forwarding_witness :
    (WalletContractV4.createTransfer w0 createWalletTransferV4 ca0).1 =
      createWalletTransferV4 ⟨5, WalletAuth.signedWith [9], [],
        PAY_GAS_SEPARATELY, none, w0.walletId⟩ ∧
    (WalletContractV4.createTransfer w0 createWalletTransferV4 ca1).1 =
      createWalletTransferV4 ⟨5, WalletAuth.signedWith [9], [], 3, none,
        w0.walletId⟩ :=
  ⟨(createTransfer_forwarding w0 createWalletTransferV4 ca0 3).1 rfl,
   (createTransfer_forwarding w0 createWalletTransferV4 ca1 3).2 rfl⟩

/-- C3: an error raised by the provider or by the signing routine
propagates unchanged to the caller of `getBalance`, `getSeqno`, `send` or
`sendTransfer`, and the wallet fields are unchanged on the error path. -/
theorem errors_propagate_unchanged (w : WalletContractV4)
    (p : ContractProvider) (sign : WalletTransferV4Params → Except Err Cell)
    (e : Err) (m : Cell) (ta : SendTransferArgs) (st : ProviderState) :
    (p.getStateR = Except.error e →
      (WalletContractV4.getBalance w p).result = Except.error e ∧
      (WalletContractV4.getBalance w p).selfAfter = w ∧
      (WalletContractV4.getSeqno w p).result = Except.error e ∧
      (WalletContractV4.getSeqno w p).selfAfter = w) ∧
    (p.getStateR = Except.ok st → st.stateType = "active" →
      p.getR "seqno" [] = Except.error e →
      (WalletContractV4.getSeqno w p).result = Except.error e ∧
      (WalletContractV4.getSeqno w p).selfAfter = w) ∧
    (p.externalR m = Except.error e →
      (WalletContractV4.send w p m).result = Except.error e ∧
      (WalletContractV4.send w p m).selfAfter = w) ∧
    ((WalletContractV4.createTransfer w sign (sendTransferCreateArgs ta)).1 =
        Except.error e →
      (WalletContractV4.sendTransfer w p sign ta).result = Except.error e ∧
      (WalletContractV4.sendTransfer w p sign ta).selfAfter = w) ∧
    (∀ t, (WalletContractV4.createTransfer w sign (sendTransferCreateArgs ta)).1 =
        Except.ok t →
      p.externalR t = Except.error e →
      (WalletContractV4.sendTransfer w p sign ta).result = Except.error e ∧
      (WalletContractV4.sendTransfer w p sign ta).selfAfter = w) := by
  refine ⟨?_, ?_, ?_, ?_, ?_⟩
  · intro hgs
    refine ⟨?_, selfAfter_getBalance w p, ?_, selfAfter_getSeqno w p⟩
    · unfold WalletContractV4.getBalance
      simp only [hgs]
    · unfold WalletContractV4.getSeqno
      simp only [hgs]
  · intro hgs hact hg
    refine ⟨?_, selfAfter_getSeqno w p⟩
    unfold WalletContractV4.getSeqno
    simp only [hgs]
    rw [if_pos hact]
    simp only [hg]
  · intro hext
    refine ⟨?_, selfAfter_send w p m⟩
    unfold WalletContractV4.send
    simp only [hext]
  · intro hsign
    refine ⟨?_, selfAfter_sendTransfer w p sign ta⟩
    unfold WalletContractV4.sendTransfer
    simp only [hsign]
  · intro t hok hext
    refine ⟨?_, selfAfter_sendTransfer w p sign ta⟩
    unfold WalletContractV4.sendTransfer
    simp only [hok]
    unfold WalletContractV4.send
    simp only [hext]

/-- Witness for C3 on providers whose `getState`, `get` or `external`
raise, and on a raising signing routine. -/
theorem errors_propagate_unchanged_witness :
    ((WalletContractV4.getBalance w0 pStateErr).result = Except.error "boom" ∧
      (WalletContractV4.getBalance w0 pStateErr).selfAfter = w0 ∧
      (WalletContractV4.getSeqno w0 pStateErr).result = Except.error "boom" ∧
      (WalletContractV4.getSeqno w0 pStateErr).selfAfter = w0) ∧
    ((WalletContractV4.getSeqno w0 pGetErr).result = Except.error "get failed" ∧
      (WalletContractV4.getSeqno w0 pGetErr).selfAfter = w0) ∧
    ((WalletContractV4.send w0 pExtErr m0).result = Except.error "ext failed" ∧
      (WalletContractV4.send w0 pExtErr m0).selfAfter = w0) ∧
    ((WalletContractV4.sendTransfer w0 pExtErr signErr ta0).result =
        Except.error "sign failed" ∧
      (WalletContractV4.sendTransfer w0 pExtErr signErr ta0).selfAfter = w0) ∧
    ((WalletContractV4.sendTransfer w0 pExtErr createWalletTransferV4 ta0).result =
        Except.error "ext failed" ∧
      (WalletContractV4.sendTransfer w0 pExtErr createWalletTransferV4 ta0).selfAfter = w0) :=
  ⟨(errors_propagate_unchanged w0 pStateErr signErr "boom" m0 ta0 ⟨0, "x"⟩).1 rfl,
   (errors_propagate_unchanged w0 pGetErr signErr "get failed" m0 ta0
      ⟨7, "active"⟩).2.1 rfl rfl rfl,
   (errors_propagate_unchanged w0 pExtErr signErr "ext failed" m0 ta0
      ⟨0, "x"⟩).2.2.1 rfl,
   (errors_propagate_unchanged w0 pExtErr signErr "sign failed" m0 ta0
      ⟨0, "x"⟩).2.2.2.1 rfl,
   (errors_propagate_unchanged w0 pExtErr createWalletTransferV4 "ext failed" m0
      ta0 ⟨0, "x"⟩).2.2.2.2 t0 rfl rfl⟩

/-- C7: the wallet's fields are computed once at construction and every
exposed operation leaves them unchanged. -/
theorem fields_immutable (w : WalletContractV4) (p : ContractProvider)
    (sign : WalletTransferV4Params → Except Err Cell) (m : Cell)
    (ta : SendTransferArgs) (ca : CreateTransferArgs) (sk : List Nat)
    (sa : SenderSendArgs) (sas : SenderSendsArgs) :
    (WalletContractV4.getBalance w p).selfAfter = w ∧
    (WalletContractV4.getSeqno w p).selfAfter = w ∧
    (WalletContractV4.send w p m).selfAfter = w ∧
    (WalletContractV4.sendTransfer w p sign ta).selfAfter = w ∧
    (WalletContractV4.createTransfer w sign ca).2 = w ∧
    (WalletContractV4.senderSend w p sign sk sa).selfAfter = w ∧
    (WalletContractV4.senderSends w p sign sk sas).selfAfter = w :=
  ⟨selfAfter_getBalance w p, selfAfter_getSeqno w p, selfAfter_send w p m,
   selfAfter_sendTransfer w p sign ta, rfl,
   selfAfter_senderSend w p sign sk sa, selfAfter_senderSends w p sign sk sas⟩

/-- C2: the sender's `send` and `sends` read the seqno from the provider
before building the transfer — their provider trace is `getSeqno`'s trace
followed by the submission — and the submitted transfer is the one built
at exactly the freshly read seqno. -/
theorem sender_uses_fresh_seqno (w : WalletContractV4) (p : ContractProvider)
    (sign : WalletTransferV4Params → Except Err Cell) (sk : List Nat)
    (sa : SenderSendArgs) (sas : SenderSendsArgs) (s : Int) (t1 t2 : Cell)
    (hs : (WalletContractV4.getSeqno w p).result = Except.ok s)
    (hc1 : (WalletContractV4.createTransfer w sign
      ⟨s, WalletAuth.signedWith sk,
       [internal sa.toAddr sa.value sa.ini sa.body sa.bounce],
       sa.sendMode, none⟩).1 = Except.ok t1)
    (hc2 : (WalletContractV4.createTransfer w sign
      ⟨s, WalletAuth.signedWith sk,
       sas.msgs.map (fun m => internal m.toAddr m.value m.ini m.body m.bounce),
       sas.sendMode, none⟩).1 = Except.ok t2) :
    (WalletContractV4.senderSend w p sign sk sa).calls =
      (WalletContractV4.getSeqno w p).calls ++ [ProviderCall.externalCall t1] ∧
    (WalletContractV4.senderSends w p sign sk sas).calls =
      (WalletContractV4.getSeqno w p).calls ++ [ProviderCall.externalCall t2] := by
  constructor
  · unfold WalletContractV4.senderSend
    simp only [hs, hc1, calls_send]
  · unfold WalletContractV4.senderSends
    simp only [hs, hc2, calls_send]

/-- Witness for C2 on the active provider: the seqno freshly read is 5 and
both submitted transfers carry seqno 5. -/
theorem sender_uses_fresh_seqno_witness :
    (WalletContractV4.senderSend w0 pAct createWalletTransferV4 [9] sa0).calls =
      (WalletContractV4.getSeqno w0 pAct).calls ++ [ProviderCall.externalCall tr1] ∧
    (WalletContractV4.senderSends w0 pAct createWalletTransferV4 [9] sas0).calls =
      (WalletContractV4.getSeqno w0 pAct).calls ++ [ProviderCall.externalCall tr2] :=
  sender_uses_fresh_seqno w0 pAct createWalletTransferV4 [9] sa0 sas0 5 tr1 tr2
    rfl rfl rfl

/-- C6 counterexample: on an active account `getSeqno` issues two provider
round trips (`getState`, then `get("seqno", [])`) and the sender's `send`
issues three, refuting "at most one round trip" as stated. -/
theorem at_most_one_round_trip_refuted :
    (WalletContractV4.getSeqno w0 pAct).calls.length = 2 ∧
    ¬ (WalletContractV4.getSeqno w0 pAct).calls.length ≤ 1 ∧
    (WalletContractV4.senderSend w0 pAct createWalletTransferV4 [9] sa0).calls.length = 3 :=
  ⟨by decide, by decide, by decide⟩

/-- C6 (amended): every exposed call issues a bounded number of provider
round trips before returning: `getBalance` and `send` at most one,
`getSeqno` at most two, `sendTransfer` at most one, and the sender's
`send`/`sends` at most three. -/
theorem round_trip_bounds (w : WalletContractV4) (p : ContractProvider)
    (sign : WalletTransferV4Params → Except Err Cell) (m : Cell)
    (ta : SendTransferArgs) (sk : List Nat) (sa : SenderSendArgs)
    (sas : SenderSendsArgs) :
    (WalletContractV4.getBalance w p).calls.length ≤ 1 ∧
    (WalletContractV4.send w p m).calls.length ≤ 1 ∧
    (WalletContractV4.getSeqno w p).calls.length ≤ 2 ∧
    (WalletContractV4.sendTransfer w p sign ta).calls.length ≤ 1 ∧
    (WalletContractV4.senderSend w p sign sk sa).calls.length ≤ 3 ∧
    (WalletContractV4.senderSends w p sign sk sas).calls.length ≤ 3 := by
  refine ⟨?_, ?_, calls_length_getSeqno w p, ?_,
    calls_length_senderSend w p sign sk sa,
    calls_length_senderSends w p sign sk sas⟩
  · unfold WalletContractV4.getBalance
    cases p.getStateR <;> simp
  · simp [calls_send]
  · unfold WalletContractV4.sendTransfer
    split
    · simp
    · simp [calls_send]

end TonWallet
